import Mathlib

/-!
Verification of the auto-poster server (src/server.py): a shallow embedding
of its global state (config, queue with cursor, bounded history, run flag)
and of its handlers (save_config, upload_file, start_posting, stop_posting)
and the posting-loop cycle, with theorems settling the specified properties.
Network effects (the publish call, the name lookup) are parametrised by
their observable outcome, exactly as the code consumes them.
-/

namespace Post

/-- The `PostConfig` pydantic model: every optional string field defaults to
the empty string, which Python treats as falsy (absent). -/
structure PostConfig where
  fb_token : String
  page_id : String := ""
  delay_minutes : Int := 5
  mention_uid : String := ""
  mention_name : String := ""
  prefix_text : String := ""
deriving DecidableEq, Repr

/-- The `queue_data` dict: `{"lines": [...], "current_index": n}`. -/
structure QueueData where
  lines : List String
  current_index : Nat
deriving DecidableEq, Repr

/-- One entry of `history_data` as built in `posting_loop`. -/
structure HistoryEntry where
  content : String
  line_number : Nat
  status : String
  error_message : Option String
  posted_at : String
deriving DecidableEq, Repr

/-- The module-level globals of server.py.  `config_data` is a dict that is
empty until the first `save_config`; we model the empty dict as `none`.
`posting_task` holds the spawned task handle (presence only). -/
structure AppState where
  posting_task : Option Unit
  is_posting : Bool
  config_data : Option PostConfig
  queue_data : QueueData
  history_data : List HistoryEntry
deriving DecidableEq, Repr

/-- The initial globals: no task, not posting, empty config dict,
`{"lines": [], "current_index": 0}`, empty history. -/
def initialState : AppState :=
  { posting_task := none
    is_posting := false
    config_data := none
    queue_data := { lines := [], current_index := 0 }
    history_data := [] }

/-- The cyclic cursor advance performed by the loop:
`queue_data['current_index'] = (queue_data['current_index'] + 1) % len(queue_data['lines'])`. -/
def advance (q : QueueData) : QueueData :=
  { q with current_index := (q.current_index + 1) % q.lines.length }

/-- History insertion as done in `posting_loop`: `history_data.insert(0, entry)`
followed by `if len(history_data) > 50: history_data = history_data[:50]`. -/
def record (h : List HistoryEntry) (e : HistoryEntry) : List HistoryEntry :=
  let h2 := e :: h
  if h2.length > 50 then h2.take 50 else h2

/-- Message composition in `post_to_facebook`:
`message = f"{prefix_text}{text}" if prefix_text else text`, then if
`mention_uid` is truthy, prepend `@[uid]` or `@[uid:name]` and a space. -/
def composeMessage (config : PostConfig) (text : String) : String :=
  let message := if config.prefix_text ≠ "" then config.prefix_text ++ text else text
  if config.mention_uid ≠ "" then
    let mention_text :=
      if config.mention_name ≠ "" then
        "@[" ++ config.mention_uid ++ ":" ++ config.mention_name ++ "]"
      else
        "@[" ++ config.mention_uid ++ "]"
    mention_text ++ " " ++ message
  else message

/-- Target selection in `post_to_facebook`: the page feed when `page_id` is
truthy, otherwise the `me` feed. -/
def targetUrl (config : PostConfig) : String :=
  if config.page_id ≠ "" then
    "https://graph.facebook.com/v21.0/" ++ config.page_id ++ "/feed"
  else
    "https://graph.facebook.com/v21.0/me/feed"

/-- Outcome of the `/api/upload-file` handler. -/
inductive UploadResult where
  | formatError
  | uploadEmpty
  | success (total_lines : Nat)
deriving DecidableEq, Repr

/-- The behaviour of Python `text.split('\n')` on the code points of the
text: every line feed is a separator, so consecutive or trailing line feeds
produce empty pieces. -/
def splitOnNewline : List Char → List (List Char)
  | [] => [[]]
  | c :: rest =>
      match splitOnNewline rest with
      | [] => [[]]
      | l :: ls => if c = '\n' then [] :: l :: ls else (c :: l) :: ls

/-- The behaviour of Python `line.strip()`: drop whitespace from both ends. -/
def pyStrip (cs : List Char) : List Char :=
  ((cs.dropWhile Char.isWhitespace).reverse.dropWhile Char.isWhitespace).reverse

/-- The line cleaning in `upload_file`:
`[line.strip() for line in text.split('\n') if line.strip()]`. -/
def cleanLines (text : String) : List String :=
  (((splitOnNewline text.toList).map pyStrip).filter (fun l => l ≠ [])).map
    (fun l => String.mk l)

/-- The `/api/upload-file` handler.  `isTxt` is the result of the
`file.filename.endswith('.txt')` check; `text` is the decoded body.
An HTTPException leaves the globals untouched; otherwise the queue is
wholesale-replaced with the cleaned lines and index 0. -/
def upload_file (isTxt : Bool) (text : String) (s : AppState) : AppState × UploadResult :=
  if ¬ isTxt then (s, UploadResult.formatError)
  else
    let lines := cleanLines text
    if lines = [] then (s, UploadResult.uploadEmpty)
    else ({ s with queue_data := { lines := lines, current_index := 0 } },
          UploadResult.success lines.length)

/-- Outcome of the `/api/start-posting` handler. -/
inductive StartResult where
  | alreadyRunning
  | configMissing
  | queueEmpty
  | success
deriving DecidableEq, Repr

/-- The `/api/start-posting` handler: guards in source order
(`is_posting`, then empty `config_data`, then empty `lines`), then sets
`is_posting = True` and spawns the loop task. -/
def start_posting (s : AppState) : AppState × StartResult :=
  if s.is_posting then (s, StartResult.alreadyRunning)
  else if s.config_data = none then (s, StartResult.configMissing)
  else if s.queue_data.lines = [] then (s, StartResult.queueEmpty)
  else ({ s with is_posting := true, posting_task := some () }, StartResult.success)

/-- Outcome of the `/api/stop-posting` handler. -/
inductive StopResult where
  | notRunning
  | success
deriving DecidableEq, Repr

/-- The `/api/stop-posting` handler: no-op returning `not_running` when not
posting; otherwise clears the flag, cancels and awaits the task, and clears
the handle. -/
def stop_posting (s : AppState) : AppState × StopResult :=
  if ¬ s.is_posting then (s, StopResult.notRunning)
  else ({ s with is_posting := false, posting_task := none }, StopResult.success)

/-- The name lookup `get_facebook_user_name`, parametrised by the observable
HTTP outcome: `none` when the request raised (timeout, transport error),
`some (code, nameField)` for a response with status `code` whose JSON
carries `nameField` (`none` when the "name" key is missing, in which case
`.get("name", "")` yields the empty string). -/
def get_facebook_user_name (resp : Option (Nat × Option String)) : Option String :=
  match resp with
  | none => none
  | some (code, nameField) =>
      if code = 200 then some (nameField.getD "") else none

/-- The `/api/config` POST handler `save_config`: stores the config wholesale;
when `mention_uid` is truthy and `mention_name` falsy, runs the best-effort
lookup and stores its result only when truthy.  Always returns success. -/
def save_config (resp : Option (Nat × Option String)) (config : PostConfig)
    (s : AppState) : AppState × String :=
  let cd := config
  let cd :=
    if cd.mention_uid ≠ "" ∧ cd.mention_name = "" then
      match get_facebook_user_name resp with
      | some name => if name ≠ "" then { cd with mention_name := name } else cd
      | none => cd
    else cd
  ({ s with config_data := some cd }, "success")

/-- One iteration of the `while is_posting` body in `posting_loop`,
parametrised by the publish outcome `(success, error)` that
`post_to_facebook` returned and the timestamp `now`.  Returns the new
globals and the number of seconds the iteration sleeps at its end.
The empty-queue branch sleeps 60 and touches nothing; an out-of-range index
raises IndexError, which the `except` absorbs with a 60-second backoff. -/
def posting_cycle (outcome : Bool × Option String) (now : String)
    (s : AppState) : AppState × Int :=
  if s.queue_data.lines = [] then (s, 60)
  else if s.queue_data.current_index < s.queue_data.lines.length then
    let current_line := (s.queue_data.lines.get? s.queue_data.current_index).getD ""
    let entry : HistoryEntry :=
      { content := current_line
        line_number := s.queue_data.current_index + 1
        status := if outcome.1 then "success" else "failed"
        error_message := outcome.2
        posted_at := now }
    ({ s with history_data := record s.history_data entry
              queue_data := advance s.queue_data },
     ((s.config_data.map PostConfig.delay_minutes).getD 5) * 60)
  else (s, 60)

/-- A sample successful history entry, used to instantiate theorems. -/
def sampleEntry : HistoryEntry :=
  { content := "c", line_number := 1, status := "success",
    error_message := none, posted_at := "t0" }

/-- A sample failed history entry, used to instantiate theorems. -/
def sampleEntry2 : HistoryEntry :=
  { content := "d", line_number := 2, status := "failed",
    error_message := some "boom", posted_at := "t1" }

/-- A sample configuration, used to instantiate theorems. -/
def sampleConfig : PostConfig := { fb_token := "T", delay_minutes := 1 }

/-- A sample configuration with a mention uid but no display name, used to
instantiate the enrichment theorems. -/
def mentionConfig : PostConfig := { fb_token := "T", mention_uid := "123" }

/-- A sample state with the scheduler running, used to instantiate theorems. -/
def sampleRunState : AppState :=
  { posting_task := some ()
    is_posting := true
    config_data := some sampleConfig
    queue_data := { lines := ["hello", "world"], current_index := 0 }
    history_data := [] }

/-- A sample stopped state with config and queue present, used to
instantiate theorems. -/
def sampleStoppedState : AppState :=
  { posting_task := none
    is_posting := false
    config_data := some sampleConfig
    queue_data := { lines := ["hello", "world"], current_index := 1 }
    history_data := [] }

/-! ## Helper lemmas -/

theorem take_50_cons (h : List HistoryEntry) (e : HistoryEntry) :
    (e :: h).take 50 = e :: h.take 49 := rfl

theorem record_head (h : List HistoryEntry) (e : HistoryEntry) :
    (record h e).head? = some e := by
  by_cases hc : 50 < h.length + 1
  · simp [record, hc, take_50_cons]
  · simp [record, hc]

theorem record_len_le (h : List HistoryEntry) (e : HistoryEntry)
    (hb : h.length ≤ 50) : (record h e).length ≤ 50 := by
  by_cases hc : 50 < h.length + 1
  · simp [record, hc, take_50_cons, List.length_take]
  · simp [record, hc]
    omega

theorem advance_iterate (q : QueueData) (hlt : q.current_index < q.lines.length) :
    ∀ k : Nat, advance^[k] q =
      { lines := q.lines, current_index := (q.current_index + k) % q.lines.length } := by
  intro k
  induction k with
  | zero =>
      simp [Nat.mod_eq_of_lt hlt]
  | succ k ih =>
      rw [Function.iterate_succ_apply', ih]
      simp [advance, Nat.mod_add_mod, Nat.add_assoc]

/-! ## Claims -/

/-- C1: with the scheduler not already running, `start_posting` fails with
the config-missing error when no config is set, fails with the queue-empty
error when a config is set but the queue has no lines (leaving state
unchanged in both cases), and otherwise transitions to running, spawns the
task, and returns success. -/
theorem start_posting_spec (s : AppState) (h : s.is_posting = false) :
    (s.config_data = none → start_posting s = (s, StartResult.configMissing)) ∧
    (s.config_data ≠ none → s.queue_data.lines = [] →
      start_posting s = (s, StartResult.queueEmpty)) ∧
    (s.config_data ≠ none → s.queue_data.lines ≠ [] →
      start_posting s =
        ({ s with is_posting := true, posting_task := some () }, StartResult.success)) := by
  refine ⟨fun hc => ?_, fun hc hq => ?_, fun hc hq => ?_⟩
  · simp [start_posting, h, hc]
  · simp [start_posting, h, hc, hq]
  · simp [start_posting, h, hc, hq]

/-- Witness for C1 at a concrete stopped state with config and queue. -/
theorem start_posting_spec_witness :
    start_posting sampleStoppedState =
      ({ sampleStoppedState with is_posting := true, posting_task := some () },
       StartResult.success) :=
  (start_posting_spec sampleStoppedState rfl).2.2 (by simp [sampleStoppedState])
    (by simp [sampleStoppedState])

/-- C2: on a non-empty queue with an in-range cursor, a single `advance`
keeps the cursor strictly below the length (and leaves the lines alone),
and iterating `advance` once per entry returns the queue, cursor included,
to exactly its starting value. -/
theorem advance_cyclic (q : QueueData) (hne : q.lines ≠ [])
    (hlt : q.current_index < q.lines.length) :
    (advance q).current_index < q.lines.length ∧
    (advance q).lines = q.lines ∧
    advance^[q.lines.length] q = q := by
  have hpos : 0 < q.lines.length := List.length_pos.mpr hne
  refine ⟨Nat.mod_lt _ hpos, rfl, ?_⟩
  rw [advance_iterate q hlt q.lines.length]
  have : (q.current_index + q.lines.length) % q.lines.length = q.current_index := by
    rw [Nat.add_mod_right, Nat.mod_eq_of_lt hlt]
  rw [this]

/-- Witness for C2 on the concrete queue `["a","b","c"]` at cursor 1. -/
theorem advance_cyclic_witness :
    (advance { lines := ["a", "b", "c"], current_index := 1 }).current_index <
      (["a", "b", "c"] : List String).length ∧
    (advance { lines := ["a", "b", "c"], current_index := 1 }).lines = ["a", "b", "c"] ∧
    advance^[3] { lines := ["a", "b", "c"], current_index := 1 } =
      { lines := ["a", "b", "c"], current_index := 1 } :=
  advance_cyclic { lines := ["a", "b", "c"], current_index := 1 } (by decide) (by decide)

/-- C3: `record` prepends the new entry at the front; it keeps the log at
50 entries or fewer whenever it was so before; and recording into a full
log of 50 yields exactly the new entry followed by the first 49 old ones,
so the oldest (51st) entry is dropped. -/
theorem record_bounded (h : List HistoryEntry) (e : HistoryEntry)
    (hb : h.length ≤ 50) :
    (record h e).length ≤ 50 ∧
    (record h e).head? = some e ∧
    (h.length = 50 → record h e = e :: h.take 49) := by
  refine ⟨record_len_le h e hb, record_head h e, fun h50 => ?_⟩
  simp [record, h50, take_50_cons]

/-- Witness for C3 at a concrete full log of 50 entries. -/
theorem record_bounded_witness :
    (record (List.replicate 50 sampleEntry) sampleEntry2).length ≤ 50 ∧
    (record (List.replicate 50 sampleEntry) sampleEntry2).head? = some sampleEntry2 ∧
    ((List.replicate 50 sampleEntry : List HistoryEntry).length = 50 →
      record (List.replicate 50 sampleEntry) sampleEntry2 =
        sampleEntry2 :: (List.replicate 50 sampleEntry).take 49) :=
  record_bounded (List.replicate 50 sampleEntry) sampleEntry2 (by simp)

/-- C4: a cycle in which the publish fails with error text `err` records a
"failed" entry carrying `err` at the front of the history, still advances
the cursor cyclically over unchanged lines, leaves the running flag alone
(the loop does not terminate), and sleeps for the configured delay in
seconds. -/
theorem publish_failure_cycle (s : AppState) (err now : String)
    (hne : s.queue_data.lines ≠ [])
    (hlt : s.queue_data.current_index < s.queue_data.lines.length) :
    (posting_cycle (false, some err) now s).1.history_data.head? =
      some { content := (s.queue_data.lines.get? s.queue_data.current_index).getD ""
             line_number := s.queue_data.current_index + 1
             status := "failed"
             error_message := some err
             posted_at := now } ∧
    (posting_cycle (false, some err) now s).1.queue_data.current_index =
      (s.queue_data.current_index + 1) % s.queue_data.lines.length ∧
    (posting_cycle (false, some err) now s).1.queue_data.lines = s.queue_data.lines ∧
    (posting_cycle (false, some err) now s).1.is_posting = s.is_posting ∧
    (posting_cycle (false, some err) now s).2 =
      ((s.config_data.map PostConfig.delay_minutes).getD 5) * 60 := by
  simp [posting_cycle, hne, hlt, advance, record_head]

/-- Witness for C4 at the concrete running state with queue
`["hello","world"]` and cursor 0. -/
theorem publish_failure_cycle_witness :
    (posting_cycle (false, some "boom") "t1" sampleRunState).1.history_data.head? =
      some { content :=
               (sampleRunState.queue_data.lines.get?
                 sampleRunState.queue_data.current_index).getD ""
             line_number := sampleRunState.queue_data.current_index + 1
             status := "failed"
             error_message := some "boom"
             posted_at := "t1" } ∧
    (posting_cycle (false, some "boom") "t1" sampleRunState).1.queue_data.current_index =
      (sampleRunState.queue_data.current_index + 1) %
        sampleRunState.queue_data.lines.length ∧
    (posting_cycle (false, some "boom") "t1" sampleRunState).1.queue_data.lines =
      sampleRunState.queue_data.lines ∧
    (posting_cycle (false, some "boom") "t1" sampleRunState).1.is_posting =
      sampleRunState.is_posting ∧
    (posting_cycle (false, some "boom") "t1" sampleRunState).2 =
      ((sampleRunState.config_data.map PostConfig.delay_minutes).getD 5) * 60 :=
  publish_failure_cycle sampleRunState "boom" "t1" (by decide) (by decide)

/-- C5: uploading splits on line feeds, strips each line, drops blanks;
when nothing remains the upload is rejected and the state is unchanged,
otherwise the cleaned lines are installed with cursor 0; an input all of
whose lines strip to nothing is rejected; and the concrete input
`"a\n\nb\n"` yields exactly the queue `["a","b"]` with cursor 0. -/
theorem upload_replace (s : AppState) (text : String) :
    (cleanLines text = [] → upload_file true text s = (s, UploadResult.uploadEmpty)) ∧
    (cleanLines text ≠ [] →
      upload_file true text s =
        ({ s with queue_data := { lines := cleanLines text, current_index := 0 } },
         UploadResult.success (cleanLines text).length)) ∧
    ((∀ l ∈ splitOnNewline text.toList, pyStrip l = []) →
      upload_file true text s = (s, UploadResult.uploadEmpty)) ∧
    cleanLines "a\n\nb\n" = ["a", "b"] ∧
    upload_file true "a\n\nb\n" s =
      ({ s with queue_data := { lines := ["a", "b"], current_index := 0 } },
       UploadResult.success 2) := by
  have hab : cleanLines "a\n\nb\n" = ["a", "b"] := by decide
  refine ⟨fun he => ?_, fun hne => ?_, fun hall => ?_, hab, ?_⟩
  · simp [upload_file, he]
  · simp [upload_file, hne]
  · have he : cleanLines text = [] := by
      simp only [cleanLines, List.map_eq_nil_iff, List.filter_eq_nil_iff]
      intro a ha
      rcases List.mem_map.mp ha with ⟨l, hl, hrfl⟩
      simp [← hrfl, hall l hl]
    simp [upload_file, he]
  · simp [upload_file, hab]

/-- Witness for C5: the blank-lines-only input `"\n  \n"` is rejected and
leaves the state untouched. -/
theorem upload_replace_witness :
    upload_file true "\n  \n" sampleRunState = (sampleRunState, UploadResult.uploadEmpty) :=
  (upload_replace sampleRunState "\n  \n").1 (by decide)

/-- C6: whenever `upload_file` rejects (wrong file type or nothing left
after trimming), the whole prior state — in particular the queue lines and
cursor — is returned unchanged. -/
theorem upload_reject_frame (s : AppState) (isTxt : Bool) (text : String)
    (h : (upload_file isTxt text s).2 = UploadResult.formatError ∨
         (upload_file isTxt text s).2 = UploadResult.uploadEmpty) :
    (upload_file isTxt text s).1 = s := by
  cases isTxt with
  | false => simp [upload_file]
  | true =>
      by_cases he : cleanLines text = []
      · simp [upload_file, he]
      · simp [upload_file, he] at h


/-- Witness for C6: a non-`.txt` upload leaves the concrete state intact. -/
theorem upload_reject_frame_witness :
    (upload_file false "a" sampleRunState).1 = sampleRunState :=
  upload_reject_frame sampleRunState false "a" (Or.inl (by decide))

/-- C7: `stop_posting` on a stopped scheduler returns the not-running
status and changes nothing; on a running one it clears the flag and the
task handle and returns success. -/
theorem stop_posting_spec (s : AppState) :
    (s.is_posting = false → stop_posting s = (s, StopResult.notRunning)) ∧
    (s.is_posting = true →
      stop_posting s =
        ({ s with is_posting := false, posting_task := none }, StopResult.success)) := by
  constructor <;> intro h <;> simp [stop_posting, h]

/-- Witness for C7 at the concrete running state. -/
theorem stop_posting_spec_witness :
    stop_posting sampleRunState =
      ({ sampleRunState with is_posting := false, posting_task := none },
       StopResult.success) :=
  (stop_posting_spec sampleRunState).2 rfl

/-- C8: the message sent to the publish endpoint carries the prefix text
exactly when it is non-empty; a set mention uid prepends the mention marker
(with the display name when known) and a space before the prefixed
message; and the target URL is the configured page feed when a page id is
present, the default `me` feed otherwise. -/
theorem compose_and_target (config : PostConfig) (text : String) :
    ((config.mention_uid = "" → config.prefix_text = "" →
        composeMessage config text = text) ∧
     (config.mention_uid = "" → config.prefix_text ≠ "" →
        composeMessage config text = config.prefix_text ++ text) ∧
     (config.mention_uid ≠ "" → config.mention_name = "" →
        composeMessage config text =
          "@[" ++ config.mention_uid ++ "]" ++ " " ++
            (if config.prefix_text ≠ "" then config.prefix_text ++ text else text)) ∧
     (config.mention_uid ≠ "" → config.mention_name ≠ "" →
        composeMessage config text =
          "@[" ++ config.mention_uid ++ ":" ++ config.mention_name ++ "]" ++ " " ++
            (if config.prefix_text ≠ "" then config.prefix_text ++ text else text))) ∧
    ((config.page_id ≠ "" →
        targetUrl config =
          "https://graph.facebook.com/v21.0/" ++ config.page_id ++ "/feed") ∧
     (config.page_id = "" →
        targetUrl config = "https://graph.facebook.com/v21.0/me/feed")) := by
  refine ⟨⟨fun hu hp => ?_, fun hu hp => ?_, fun hu hn => ?_, fun hu hn => ?_⟩,
          fun hpg => ?_, fun hpg => ?_⟩
  · simp [composeMessage, hu, hp]
  · simp [composeMessage, hu, hp]
  · simp [composeMessage, hu, hn]
  · simp [composeMessage, hu, hn]
  · simp [targetUrl, hpg]
  · simp [targetUrl, hpg]

/-- Witness for C8 at a config with no mention, no prefix, no page id. -/
theorem compose_and_target_witness :
    composeMessage sampleConfig "hi" = "hi" ∧
    targetUrl sampleConfig = "https://graph.facebook.com/v21.0/me/feed" :=
  ⟨(compose_and_target sampleConfig "hi").1.1 (by decide) (by decide),
   (compose_and_target sampleConfig "hi").2.2 (by decide)⟩

/-- C9: saving a config whose mention uid is set and display name empty
always reports success; when the lookup yields a non-empty name it is
stored into the config, while a raised lookup (timeout/transport), a
non-200 response, or a 200 response without a name field all leave the
name empty without failing the save. -/
theorem save_config_enrichment (resp : Option (Nat × Option String))
    (config : PostConfig) (s : AppState)
    (huid : config.mention_uid ≠ "") (hname : config.mention_name = "") :
    (save_config resp config s).2 = "success" ∧
    (∀ name, get_facebook_user_name resp = some name → name ≠ "" →
      (save_config resp config s).1.config_data =
        some { config with mention_name := name }) ∧
    (get_facebook_user_name resp = none →
      (save_config resp config s).1.config_data = some config) ∧
    (get_facebook_user_name resp = some "" →
      (save_config resp config s).1.config_data = some config) ∧
    (resp = none → get_facebook_user_name resp = none) ∧
    (∀ code nameField, code ≠ 200 →
      get_facebook_user_name (some (code, nameField)) = none) ∧
    get_facebook_user_name (some (200, none)) = some "" := by
  refine ⟨by simp [save_config], fun name hl hn => ?_, fun hl => ?_, fun hl => ?_,
          fun hr => ?_, fun code nameField hc => ?_, by simp [get_facebook_user_name]⟩
  · simp [save_config, huid, hname, hl, hn]
  · simp [save_config, huid, hname, hl]
  · simp [save_config, huid, hname, hl]
  · simp [get_facebook_user_name, hr]
  · simp [get_facebook_user_name, hc]

/-- Witness for C9: a 200 lookup answering "Alice" is stored into the
saved config. -/
theorem save_config_enrichment_witness :
    (save_config (some (200, some "Alice")) mentionConfig sampleRunState).1.config_data =
      some { mentionConfig with mention_name := "Alice" } :=
  (save_config_enrichment (some (200, some "Alice")) mentionConfig sampleRunState
      (by decide) (by decide)).2.1 "Alice" (by decide) (by decide)

/-- C10: `start_posting` and `stop_posting` leave the config, the queue
(lines and cursor) and the history untouched in every branch; hence
stopping and then successfully starting again resumes with exactly the
queue — cursor included — of the previous run. -/
theorem start_stop_frame (s : AppState) :
    ((start_posting s).1.config_data = s.config_data ∧
     (start_posting s).1.queue_data = s.queue_data ∧
     (start_posting s).1.history_data = s.history_data) ∧
    ((stop_posting s).1.config_data = s.config_data ∧
     (stop_posting s).1.queue_data = s.queue_data ∧
     (stop_posting s).1.history_data = s.history_data) ∧
    ((start_posting (stop_posting s).1).1.queue_data = s.queue_data ∧
     (s.config_data ≠ none → s.queue_data.lines ≠ [] →
       (start_posting (stop_posting s).1).2 = StartResult.success ∧
       (start_posting (stop_posting s).1).1.is_posting = true)) := by
  have hstart : ∀ t : AppState,
      (start_posting t).1.config_data = t.config_data ∧
      (start_posting t).1.queue_data = t.queue_data ∧
      (start_posting t).1.history_data = t.history_data := by
    intro t
    by_cases h1 : t.is_posting <;> by_cases h2 : t.config_data = none <;>
      by_cases h3 : t.queue_data.lines = [] <;> simp [start_posting, h1, h2, h3]
  have hstop : ∀ t : AppState,
      (stop_posting t).1.config_data = t.config_data ∧
      (stop_posting t).1.queue_data = t.queue_data ∧
      (stop_posting t).1.history_data = t.history_data ∧
      (stop_posting t).1.is_posting = false := by
    intro t
    by_cases h1 : t.is_posting <;> simp [stop_posting, h1]
  refine ⟨hstart s, ⟨(hstop s).1, (hstop s).2.1, (hstop s).2.2.1⟩,
          ?_, fun hc hq => ?_⟩
  · rw [(hstart (stop_posting s).1).2.1, (hstop s).2.1]
  · have hrun : (stop_posting s).1.is_posting = false := (hstop s).2.2.2
    have hc1 : (stop_posting s).1.config_data ≠ none := by
      rw [(hstop s).1]; exact hc
    have hq1 : (stop_posting s).1.queue_data.lines ≠ [] := by
      rw [(hstop s).2.1]; exact hq
    have hs : start_posting (stop_posting s).1 =
        ({ (stop_posting s).1 with is_posting := true, posting_task := some () },
         StartResult.success) := by
      simp [start_posting, hrun, hc1, hq1]
    rw [hs]
    exact ⟨rfl, rfl⟩

/-- Witness for C10 at the concrete running state. -/
theorem start_stop_frame_witness :
    (start_posting (stop_posting sampleRunState).1).1.queue_data =
      sampleRunState.queue_data ∧
    (start_posting (stop_posting sampleRunState).1).2 = StartResult.success :=
  ⟨(start_stop_frame sampleRunState).2.2.1,
   ((start_stop_frame sampleRunState).2.2.2 (by decide) (by decide)).1⟩

end Post
